import Mathlib

/-!
Verification of the core of the `caab-api-certificacao` service: a REST
façade over a spreadsheet store holding "tickets" and "pedidos" (orders).

The embedding translates the core TypeScript modules:
  * `utils/writeLock.ts`  (`createWriteLock`)
  * `utils/errors.ts`     (error taxonomy)
  * `services/ticketsService.ts` (`readAllTickets`, `createTicket`,
    `updateTicket`, `assignAvailableTicket`)
  * `services/ordersService.ts`  (`readAllOrders`, `createOrder`,
    `updateOrder`)

The external Google-Sheets store is modelled as part of an explicit
`SysState`: each sheet is a list of rows (a row is a list of strings, a
missing cell reads as `""`, which is how the code reads `row[i] || ""`).
Transport failures of individual store calls are modelled by per-call
fault flags in the state; a counter per sheet records how many store
reads were issued, so "no store access" and "fresh, cache-bypassing
read" are observable.  Nondeterministic environment values of the code
(`crypto.randomUUID()`, `nowBR()`, `Date.now()`) become explicit
parameters of the corresponding functions.
-/

/-! ## Rows and cells -/

/-- A spreadsheet row, as delivered by the values API. -/
abbrev Row := List String

/-- Reading cell `i` of a row: `row[i] || ""` in the source. -/
def cell (r : Row) (i : Nat) : String := (r.get? i).getD ""

/-- Pad a row with empty cells up to length `n` (the sheet materialises
missing cells when a later cell is written). -/
def padTo (r : Row) (n : Nat) : Row := r ++ List.replicate (n - r.length) ""

/-- Overwrite a single cell of a row, extending the row if needed: models
a one-cell `values.update` on that row. -/
def setCell (r : Row) (i : Nat) (v : String) : Row := (padTo r (i + 1)).set i v

/-- Index of the first row satisfying `p`, scanning in row order: models
`Array.prototype.findIndex`. -/
def findFirstIdx (p : Row → Bool) : List Row → Option Nat
  | [] => none
  | r :: rs => if p r then some 0 else (findFirstIdx p rs).map (fun i => i + 1)

/-- The source's `rows.findIndex((row, i) => i > 0 && p(row))`: scan the
rows after the header, reporting an index into the full row list. -/
def findBodyIdx (p : Row → Bool) (rows : List Row) : Option Nat :=
  (findFirstIdx p (rows.drop 1)).map (fun i => i + 1)

/-! ## Domain data (from `ticketsService.ts` / `ordersService.ts`) -/

/-- Error taxonomy from `utils/errors.ts` (plus the store-transport
failure of the sheets client). -/
inductive Err where
  | notFound
  | conflict
  | noTickets
  | storeUnavailable
deriving Repr, DecidableEq

/-- The `Ticket` interface. -/
structure Ticket where
  ticket : String
  status : String
deriving Repr, DecidableEq

/-- The `Order` interface (column order `[uuid, ticket, numero_oab,
nome_completo, subsecao, data_solicitacao, data_liberacao, status,
anotacoes]`). -/
structure Order where
  uuid : String
  ticket : String
  numero_oab : String
  nome_completo : String
  subsecao : String
  data_solicitacao : String
  data_liberacao : String
  status : String
  anotacoes : String
deriving Repr, DecidableEq

/-- The `conflict` payload of `CreateOrderResult`. -/
structure ConflictInfo where
  existing_ticket : String
  existing_date : String
deriving Repr, DecidableEq

/-- The `CreateOrderResult` interface: the created order, plus conflict
metadata when the OAB number was a duplicate. -/
structure CreateOrderResult where
  order : Order
  conflict : Option ConflictInfo
deriving Repr, DecidableEq

/-- `CreateOrderData = Omit<Order, "uuid" | "ticket" | "data_solicitacao"
| "data_liberacao" | "status">`. -/
structure CreateOrderData where
  numero_oab : String
  nome_completo : String
  subsecao : String
  anotacoes : String
deriving Repr, DecidableEq

/-- `UpdateOrderData = Partial<Omit<Order, "uuid">>`: every field
optional. -/
structure UpdateOrderData where
  ticket : Option String
  numero_oab : Option String
  nome_completo : Option String
  subsecao : Option String
  data_solicitacao : Option String
  data_liberacao : Option String
  status : Option String
  anotacoes : Option String
deriving Repr, DecidableEq

/-! ## System state -/

/-- The whole mutable world the two services touch: the two sheets, the
two module-level caches, fault-injection flags for the individual store
calls, and per-sheet read counters (observability of store accesses). -/
structure SysState where
  ticketRows : List Row
  orderRows : List Row
  ticketsCache : Option (List Ticket)
  ticketsCacheTime : Nat
  ordersCache : Option (List Order)
  ordersCacheTime : Nat
  failTicketsGet : Bool
  failTicketsAppend : Bool
  failTicketsUpdate : Bool
  failOrdersGet : Bool
  failOrdersAppend : Bool
  failOrdersUpdate : Bool
  ticketsReads : Nat
  ordersReads : Nat
deriving Repr, DecidableEq

/-- `CACHE_TTL = 5 * 60 * 1000` (milliseconds). -/
def CACHE_TTL : Nat := 5 * 60 * 1000

/-! ## Store-adapter primitives (the `sheets.spreadsheets.values` calls) -/

/-- `values.get` on the tickets sheet: one store read; fails when the
transport fault flag is set. -/
def ticketsValuesGet (s : SysState) : Except Err (List Row) × SysState :=
  let s1 := { s with ticketsReads := s.ticketsReads + 1 }
  if s.failTicketsGet then (Except.error Err.storeUnavailable, s1)
  else (Except.ok s.ticketRows, s1)

/-- `values.append` on the tickets sheet. -/
def ticketsValuesAppend (row : Row) (s : SysState) : Except Err Unit × SysState :=
  if s.failTicketsAppend then (Except.error Err.storeUnavailable, s)
  else (Except.ok (), { s with ticketRows := s.ticketRows ++ [row] })

/-- One-cell `values.update` on the tickets sheet at row `rowIdx`
(0-based here; the A1 range in the source is 1-based), column `cellIdx`. -/
def ticketsValuesUpdateCell (rowIdx cellIdx : Nat) (v : String) (s : SysState) :
    Except Err Unit × SysState :=
  if s.failTicketsUpdate then (Except.error Err.storeUnavailable, s)
  else
    (Except.ok (),
     { s with ticketRows := s.ticketRows.set rowIdx (setCell (s.ticketRows.getD rowIdx []) cellIdx v) })

/-- `values.get` on the orders sheet. -/
def ordersValuesGet (s : SysState) : Except Err (List Row) × SysState :=
  let s1 := { s with ordersReads := s.ordersReads + 1 }
  if s.failOrdersGet then (Except.error Err.storeUnavailable, s1)
  else (Except.ok s.orderRows, s1)

/-- `values.append` on the orders sheet. -/
def ordersValuesAppend (row : Row) (s : SysState) : Except Err Unit × SysState :=
  if s.failOrdersAppend then (Except.error Err.storeUnavailable, s)
  else (Except.ok (), { s with orderRows := s.orderRows ++ [row] })

/-- Full-row `values.update` on the orders sheet (range `A..I` of one
row). -/
def ordersValuesUpdateRow (rowIdx : Nat) (row : Row) (s : SysState) :
    Except Err Unit × SysState :=
  if s.failOrdersUpdate then (Except.error Err.storeUnavailable, s)
  else (Except.ok (), { s with orderRows := s.orderRows.set rowIdx row })

/-! ## Tickets service (`services/ticketsService.ts`) -/

namespace Tickets

/-- `invalidateCache()` of the tickets module. -/
def invalidateCache (s : SysState) : SysState :=
  { s with ticketsCache := none, ticketsCacheTime := 0 }

/-- Row decoding of `readAllTickets`: skip the header row, drop rows with
an empty ticket name, read the two cells. -/
def decodeTickets (rows : List Row) : List Ticket :=
  ((rows.drop 1).filter (fun r => cell r 0 != "")).map
    (fun r => { ticket := cell r 0, status := cell r 1 })

/-- The cache-miss path of `readAllTickets`: store read, decode, record
the snapshot with capture time `tCap`. -/
def readAllTicketsFresh (tCap : Nat) (s : SysState) :
    Except Err (List Ticket) × SysState :=
  match ticketsValuesGet s with
  | (Except.error e, s1) => (Except.error e, s1)
  | (Except.ok rows, s1) =>
    let ts := decodeTickets rows
    (Except.ok ts, { s1 with ticketsCache := some ts, ticketsCacheTime := tCap })

/-- `readAllTickets()`; `tNow` is `Date.now()` at entry, `tCap` the
`Date.now()` recorded after the fetch. -/
def readAllTickets (tNow tCap : Nat) (s : SysState) :
    Except Err (List Ticket) × SysState :=
  match s.ticketsCache with
  | some c =>
    if tNow - s.ticketsCacheTime < CACHE_TTL then (Except.ok c, s)
    else readAllTicketsFresh tCap s
  | none => readAllTicketsFresh tCap s

/-- `createTicket(ticket)`: the body of the write-locked task. -/
def createTicket (tk : String) (tNow tCap : Nat) (s : SysState) :
    Except Err Ticket × SysState :=
  let s0 := invalidateCache s
  match readAllTickets tNow tCap s0 with
  | (Except.error e, s1) => (Except.error e, s1)
  | (Except.ok existing, s1) =>
    if existing.any (fun t => t.ticket == tk) then (Except.error Err.conflict, s1)
    else
      match ticketsValuesAppend [tk, ""] s1 with
      | (Except.error e, s2) => (Except.error e, s2)
      | (Except.ok _, s2) =>
        (Except.ok { ticket := tk, status := "" }, invalidateCache s2)

/-- `updateTicket(oldTicket, newTicket)`: the body of the write-locked
task; only cell A of the matched row is overwritten. -/
def updateTicket (oldT newT : String) (s : SysState) :
    Except Err Ticket × SysState :=
  let s0 := invalidateCache s
  match ticketsValuesGet s0 with
  | (Except.error e, s1) => (Except.error e, s1)
  | (Except.ok rows, s1) =>
    match findBodyIdx (fun r => cell r 0 == oldT) rows with
    | none => (Except.error Err.notFound, s1)
    | some i =>
      let currentStatus := cell (rows.getD i []) 1
      match ticketsValuesUpdateCell i 0 newT s1 with
      | (Except.error e, s2) => (Except.error e, s2)
      | (Except.ok _, s2) =>
        (Except.ok { ticket := newT, status := currentStatus }, invalidateCache s2)

/-- A row holds an assignable ticket when `row[0] && !row[1]`: non-empty
ticket cell, empty (or missing) status cell. -/
def isAvailRow (r : Row) : Bool := (cell r 0 != "") && (cell r 1 == "")

/-- `assignAvailableTicket()`: fresh read, scan for the first available
row after the header, mark its status cell `"Atribuído"`, invalidate
the tickets cache, return the ticket value. -/
def assignAvailableTicket (s : SysState) : Except Err String × SysState :=
  match ticketsValuesGet s with
  | (Except.error e, s1) => (Except.error e, s1)
  | (Except.ok rows, s1) =>
    match findBodyIdx isAvailRow rows with
    | none => (Except.error Err.noTickets, s1)
    | some i =>
      let tk := cell (rows.getD i []) 0
      match ticketsValuesUpdateCell i 1 "Atribuído" s1 with
      | (Except.error e, s2) => (Except.error e, s2)
      | (Except.ok _, s2) => (Except.ok tk, invalidateCache s2)

end Tickets

/-! ## Orders service (`services/ordersService.ts`) -/

namespace Orders

/-- `invalidateCache()` of the orders module. -/
def invalidateCache (s : SysState) : SysState :=
  { s with ordersCache := none, ordersCacheTime := 0 }

/-- `rowToOrder(row)`. -/
def rowToOrder (row : Row) : Order :=
  { uuid := cell row 0
    ticket := cell row 1
    numero_oab := cell row 2
    nome_completo := cell row 3
    subsecao := cell row 4
    data_solicitacao := cell row 5
    data_liberacao := cell row 6
    status := cell row 7
    anotacoes := cell row 8 }

/-- `orderToRow(order)`. -/
def orderToRow (o : Order) : Row :=
  [o.uuid, o.ticket, o.numero_oab, o.nome_completo, o.subsecao,
   o.data_solicitacao, o.data_liberacao, o.status, o.anotacoes]

/-- The cache-miss path of `readAllOrders`. -/
def readAllOrdersFresh (tCap : Nat) (s : SysState) :
    Except Err (List Order) × SysState :=
  match ordersValuesGet s with
  | (Except.error e, s1) => (Except.error e, s1)
  | (Except.ok rows, s1) =>
    let orders := (rows.drop 1).map rowToOrder
    (Except.ok orders, { s1 with ordersCache := some orders, ordersCacheTime := tCap })

/-- `readAllOrders()`. -/
def readAllOrders (tNow tCap : Nat) (s : SysState) :
    Except Err (List Order) × SysState :=
  match s.ordersCache with
  | some c =>
    if tNow - s.ordersCacheTime < CACHE_TTL then (Except.ok c, s)
    else readAllOrdersFresh tCap s
  | none => readAllOrdersFresh tCap s

/-- The ticket-allocation step of `createOrder`: skipped on a duplicate
OAB; otherwise calls the allocator, rethrowing `NoTicketsError` and
converting every other failure into `NoTicketsError` (the
`catch (err)` block of the source). -/
def allocStep (duplicateOab : Bool) (s : SysState) : Except Err String × SysState :=
  if duplicateOab then (Except.ok "", s)
  else
    match Tickets.assignAvailableTicket s with
    | (Except.ok tk, s1) => (Except.ok tk, s1)
    | (Except.error Err.noTickets, s1) => (Except.error Err.noTickets, s1)
    | (Except.error _, s1) => (Except.error Err.noTickets, s1)

/-- `createOrder(data)`: the body of the write-locked task.  `uuid` is
the generated `crypto.randomUUID()`, `nowSol`/`nowLib` the two `nowBR()`
calls, `tNow`/`tCap` the `Date.now()` values seen by `readAllOrders`. -/
def createOrder (data : CreateOrderData) (uuid nowSol nowLib : String)
    (tNow tCap : Nat) (s : SysState) : Except Err CreateOrderResult × SysState :=
  let s0 := invalidateCache s
  match readAllOrders tNow tCap s0 with
  | (Except.error e, s1) => (Except.error e, s1)
  | (Except.ok existing, s1) =>
    let normalizedOab := data.numero_oab.trim
    let existingOrder :=
      if normalizedOab != "" then
        existing.find? (fun o => o.numero_oab.trim == normalizedOab)
      else none
    let duplicateOab := existingOrder.isSome
    match allocStep duplicateOab s1 with
    | (Except.error e, s2) => (Except.error e, s2)
    | (Except.ok tk, s2) =>
      let order : Order :=
        { uuid := uuid
          ticket := tk
          numero_oab := normalizedOab
          nome_completo := data.nome_completo
          subsecao := data.subsecao
          data_solicitacao := nowSol
          data_liberacao := nowLib
          status := if duplicateOab then "Recusado" else "Aprovado"
          anotacoes := data.anotacoes }
      match ordersValuesAppend (orderToRow order) s2 with
      | (Except.error e, s3) => (Except.error e, s3)
      | (Except.ok _, s3) =>
        let s4 := invalidateCache s3
        match existingOrder with
        | some eo =>
          (Except.ok
            { order := order
              conflict := some { existing_ticket := eo.ticket
                                 existing_date := eo.data_solicitacao } }, s4)
        | none => (Except.ok { order := order, conflict := none }, s4)

/-- `updateOrder(uuid, data)`: the body of the write-locked task; note
the row is resolved by a raw `values.get`, not through the cache. -/
def updateOrder (uuid : String) (data : UpdateOrderData) (s : SysState) :
    Except Err Order × SysState :=
  let s0 := invalidateCache s
  match ordersValuesGet s0 with
  | (Except.error e, s1) => (Except.error e, s1)
  | (Except.ok rows, s1) =>
    match findBodyIdx (fun r => cell r 0 == uuid) rows with
    | none => (Except.error Err.notFound, s1)
    | some i =>
      let existing := rowToOrder (rows.getD i [])
      let updated : Order :=
        { uuid := existing.uuid
          ticket := data.ticket.getD existing.ticket
          numero_oab := data.numero_oab.getD existing.numero_oab
          nome_completo := data.nome_completo.getD existing.nome_completo
          subsecao := data.subsecao.getD existing.subsecao
          data_solicitacao := data.data_solicitacao.getD existing.data_solicitacao
          data_liberacao := data.data_liberacao.getD existing.data_liberacao
          status := data.status.getD existing.status
          anotacoes := data.anotacoes.getD existing.anotacoes }
      match ordersValuesUpdateRow i (orderToRow updated) s1 with
      | (Except.error e, s2) => (Except.error e, s2)
      | (Except.ok _, s2) => (Except.ok updated, invalidateCache s2)

end Orders

/-! ## Write lock (`utils/writeLock.ts`, `createWriteLock`) -/

namespace WriteLock

/-- A task handed to `withWriteLock`: mutates the shared state and
either produces a value or fails, leaving the state as mutated so far. -/
def LockTask (σ ε α : Type) : Type := σ → Except ε α × σ

/-- The continuation the source appends to the promise chain for one
`withWriteLock(fn)` call: run the task, deliver its outcome (resolve or
reject) to that caller's `result` promise, and settle the chain link —
the `try { resolve(await fn()) } catch (err) { reject(err) }` body
returns normally in both branches, so the link always fulfils. -/
def lockWrapper {σ ε α : Type} (fn : LockTask σ ε α) (s : σ) :
    (Except ε α × Except ε Unit) × σ :=
  match fn s with
  | (r, s1) => ((r, Except.ok ()), s1)

/-- Execution of the promise chain after a sequence of `withWriteLock`
submissions, under the usual `then` semantics of a single chain: a
fulfilled link runs the next queued continuation; a rejected link skips
it (that submitter's promise then never settles, reported as `none`) and
propagates the rejection down the chain.  Returns each submitter's
outcome in submission order, the chain's final settlement, and the final
state. -/
def runChain {σ ε α : Type} :
    Except ε Unit → List (LockTask σ ε α) → σ →
      List (Option (Except ε α)) × (Except ε Unit × σ)
  | c, [], s => ([], (c, s))
  | c, fn :: fns, s =>
    match c with
    | Except.error e =>
      let rest := runChain (Except.error e) fns s
      (none :: rest.1, rest.2)
    | Except.ok _ =>
      let step := lockWrapper fn s
      let rest := runChain step.1.2 fns step.2
      (some step.1.1 :: rest.1, rest.2)

/-- Specification-side execution order, written from the spec's words:
tasks run strictly one after the other in submission order, each task
sees the state left by the previous one, and each submitter receives
exactly its own task's outcome. -/
def seqRunSpec {σ ε α : Type} : List (LockTask σ ε α) → σ → List (Except ε α) × σ
  | [], s => ([], s)
  | fn :: fns, s =>
    let p := fn s
    let rest := seqRunSpec fns p.2
    (p.1 :: rest.1, rest.2)

end WriteLock

/-! ## Spec-side views of the ticket sheet -/

/-- The available tickets of a sheet, in row order: ticket values of the
rows after the header with a non-empty ticket cell and an empty status
cell. -/
def availableTicketsList (rows : List Row) : List String :=
  ((rows.drop 1).filter Tickets.isAvailRow).map (fun r => cell r 0)

/-- All ticket values appearing in the sheet (rows after the header with
a non-empty ticket cell), in row order. -/
def ticketCellValues (rows : List Row) : List String :=
  ((rows.drop 1).filter (fun r => cell r 0 != "")).map (fun r => cell r 0)

/-- Iterated sequential ticket assignment: run `assignAvailableTicket`
up to `n` times, stopping at the first failure, collecting the returned
ticket values in order. -/
def assignMany : Nat → SysState → List String × SysState
  | 0, s => ([], s)
  | Nat.succ n, s =>
    match Tickets.assignAvailableTicket s with
    | (Except.error _, s1) => ([], s1)
    | (Except.ok tk, s1) =>
      let rest := assignMany n s1
      (tk :: rest.1, rest.2)

/-! ## Concrete states and inputs used by the witnesses -/

/-- A small concrete system state used by the witnesses: a tickets sheet
with a header and three ticket rows (one already assigned), an orders
sheet with a header and one approved order. -/
def baseState : SysState :=
  { ticketRows := [["ticket", "status"], ["T1", ""], ["T2", "Atribuído"], ["T3", ""]],
    orderRows := [["uuid", "ticket", "numero_oab", "nome_completo", "subsecao",
                   "data_solicitacao", "data_liberacao", "status", "anotacoes"],
                  ["u-1", "T2", "123", "Ana", "", "2024-01-01 10:00:00",
                   "2024-01-01 10:00:00", "Aprovado", ""]],
    ticketsCache := none, ticketsCacheTime := 0,
    ordersCache := none, ordersCacheTime := 0,
    failTicketsGet := false, failTicketsAppend := false, failTicketsUpdate := false,
    failOrdersGet := false, failOrdersAppend := false, failOrdersUpdate := false,
    ticketsReads := 0, ordersReads := 0 }

/-- A concrete state in which every ticket row is already assigned. -/
def noAvailState : SysState :=
  { baseState with
      ticketRows := [["ticket", "status"], ["T1", "Atribuído"], ["T2", "Atribuído"]] }

/-- The create request used by several witnesses: empty OAB number. -/
def plainCreateData : CreateOrderData :=
  { numero_oab := "", nome_completo := "X", subsecao := "", anotacoes := "" }

/-- The order row the spec says a duplicate-OAB create must append:
empty ticket, status "Recusado", trimmed OAB, service timestamps. -/
def deniedOrder (data : CreateOrderData) (uuid nowSol nowLib : String) : Order :=
  { uuid := uuid, ticket := "", numero_oab := data.numero_oab.trim,
    nome_completo := data.nome_completo, subsecao := data.subsecao,
    data_solicitacao := nowSol, data_liberacao := nowLib,
    status := "Recusado", anotacoes := data.anotacoes }

/-- The order row the spec says a conflict-free create must append:
the allocated ticket and status "Aprovado". -/
def approvedOrder (data : CreateOrderData) (uuid nowSol nowLib tk : String) : Order :=
  { uuid := uuid, ticket := tk, numero_oab := data.numero_oab.trim,
    nome_completo := data.nome_completo, subsecao := data.subsecao,
    data_solicitacao := nowSol, data_liberacao := nowLib,
    status := "Aprovado", anotacoes := data.anotacoes }

/-- A create request whose OAB number duplicates the existing order of
`baseState`. -/
def dupData : CreateOrderData :=
  { numero_oab := "123", nome_completo := "B", subsecao := "", anotacoes := "" }

/-- The pre-existing order stored in `baseState`. -/
def anaOrder : Order :=
  { uuid := "u-1", ticket := "T2", numero_oab := "123", nome_completo := "Ana",
    subsecao := "", data_solicitacao := "2024-01-01 10:00:00",
    data_liberacao := "2024-01-01 10:00:00", status := "Aprovado", anotacoes := "" }

/-- A partial update carrying only a `status` value. -/
def updStatusData : UpdateOrderData :=
  { ticket := none, numero_oab := none, nome_completo := none, subsecao := none,
    data_solicitacao := none, data_liberacao := none,
    status := some "Recusado", anotacoes := none }

/-- A concrete state whose tickets-sheet reads fail at the transport. -/
def failGetState : SysState := { baseState with failTicketsGet := true }

/-- A concrete state whose tickets-sheet append fails at the transport. -/
def failAppendState : SysState := { baseState with failTicketsAppend := true }

/-- A concrete state whose tickets-sheet status update fails at the
transport. -/
def failUpdState : SysState := { baseState with failTicketsUpdate := true }

/-- A concrete state where both sheet appends fail at the transport. -/
def failAppendBothState : SysState :=
  { baseState with failTicketsAppend := true, failOrdersAppend := true }

/-! ## Basic lemmas about cells and row scanning -/

lemma cell_nil (i : Nat) : cell [] i = "" := by
  cases i <;> rfl

lemma cell_setCell_one_zero (r : Row) (v : String) :
    cell (setCell r 1 v) 0 = cell r 0 := by
  cases r with
  | nil => rfl
  | cons a t => cases t <;> rfl

lemma cell_setCell_one_one (r : Row) (v : String) :
    cell (setCell r 1 v) 1 = v := by
  cases r with
  | nil => rfl
  | cons a t => cases t <;> rfl

lemma cell_setCell_zero_one (r : Row) (v : String) :
    cell (setCell r 0 v) 1 = cell r 1 := by
  cases r with
  | nil => rfl
  | cons a t => cases t <;> rfl

lemma isAvailRow_mark_false (r : Row) :
    Tickets.isAvailRow (setCell r 1 "Atribuído") = false := by
  simp [Tickets.isAvailRow, cell_setCell_one_one]

lemma cell_zero_ne_of_avail {r : Row} (h : Tickets.isAvailRow r = true) :
    (cell r 0 != "") = true := by
  simp only [Tickets.isAvailRow, Bool.and_eq_true] at h
  exact h.1

lemma findFirstIdx_eq_none_of (p : Row → Bool) :
    ∀ l : List Row, (∀ r ∈ l, p r = false) → findFirstIdx p l = none := by
  intro l
  induction l with
  | nil => intro _; rfl
  | cons r rs ih =>
    intro h
    simp [findFirstIdx, h r (List.mem_cons_self r rs),
      ih (fun x hx => h x (List.mem_cons_of_mem r hx))]

lemma filter_eq_nil_of_findFirstIdx_none (p : Row → Bool) :
    ∀ l : List Row, findFirstIdx p l = none → l.filter p = [] := by
  intro l
  induction l with
  | nil => intro _; rfl
  | cons r rs ih =>
    intro h
    simp only [findFirstIdx] at h
    by_cases hr : p r = true
    · simp [hr] at h
    · simp only [Bool.not_eq_true] at hr
      simp only [hr, if_neg] at h
      simp only [List.filter_cons, hr]
      have hrs : findFirstIdx p rs = none := by
        rcases h' : findFirstIdx p rs with _ | j
        · rfl
        · rw [h'] at h
          simp at h
      exact ih hrs

lemma findFirstIdx_eq_some_of (p : Row → Bool) :
    ∀ (l : List Row) (k : Nat), k < l.length → p (l.getD k []) = true →
      (∀ j, j < k → p (l.getD j []) = false) → findFirstIdx p l = some k := by
  intro l
  induction l with
  | nil => intro k hk; simp at hk
  | cons r rs ih =>
    intro k hk hpk hmin
    cases k with
    | zero =>
      simp only [List.getD_cons_zero] at hpk
      simp [findFirstIdx, hpk]
    | succ k =>
      have hr : p r = false := by
        have := hmin 0 (Nat.succ_pos k)
        simpa using this
      simp only [findFirstIdx, hr, Bool.false_eq_true, if_false]
      have : findFirstIdx p rs = some k := by
        apply ih k (by simpa using hk) (by simpa using hpk)
        intro j hj
        have := hmin (j + 1) (Nat.succ_lt_succ hj)
        simpa using this
      simp [this]

lemma findFirstIdx_avail_mark :
    ∀ (body : List Row) (j : Nat), findFirstIdx Tickets.isAvailRow body = some j →
      Tickets.isAvailRow (body.getD j []) = true ∧
      (body.filter Tickets.isAvailRow).map (fun r => cell r 0) =
        cell (body.getD j []) 0 ::
          ((body.set j (setCell (body.getD j []) 1 "Atribuído")).filter
            Tickets.isAvailRow).map (fun r => cell r 0) ∧
      ((body.set j (setCell (body.getD j []) 1 "Atribuído")).filter
          (fun r => cell r 0 != "")).map (fun r => cell r 0) =
        (body.filter (fun r => cell r 0 != "")).map (fun r => cell r 0) := by
  intro body
  induction body with
  | nil => intro j h; simp [findFirstIdx] at h
  | cons r rs ih =>
    intro j h
    simp only [findFirstIdx] at h
    by_cases hr : Tickets.isAvailRow r = true
    · rw [if_pos hr] at h
      obtain rfl : j = 0 := (Option.some.inj h).symm
      simp only [List.getD_cons_zero, List.set_cons_zero]
      refine ⟨hr, ?_, ?_⟩
      · simp [List.filter_cons, hr, isAvailRow_mark_false]
      · simp [List.filter_cons, cell_setCell_one_zero, cell_zero_ne_of_avail hr]
    · rw [if_neg hr] at h
      rcases h' : findFirstIdx Tickets.isAvailRow rs with _ | j'
      · rw [h'] at h
        simp at h
      · rw [h'] at h
        simp only [Option.map_some'] at h
        obtain rfl : j = j' + 1 := (Option.some.inj h).symm
        obtain ⟨ih1, ih2, ih3⟩ := ih j' h'
        have hrf : Tickets.isAvailRow r = false := by
          simpa using hr
        refine ⟨by simpa using ih1, ?_, ?_⟩
        · simp only [List.getD_cons_succ, List.set_cons_succ, List.filter_cons, hrf]
          simpa using ih2
        · simp only [List.getD_cons_succ, List.set_cons_succ, List.filter_cons]
          by_cases hc : (cell r 0 != "") = true
          · simp only [hc, if_true, List.map_cons]
            exact congrArg (fun l => cell r 0 :: l) ih3
          · have hcf : (cell r 0 != "") = false := by simpa using hc
            simp only [hcf, Bool.false_eq_true, if_false]
            simpa using ih3

lemma filter_avail_sublist :
    ∀ l : List Row,
      List.Sublist (l.filter Tickets.isAvailRow) (l.filter (fun r => cell r 0 != "")) := by
  intro l
  induction l with
  | nil => simp
  | cons r rs ih =>
    simp only [List.filter_cons]
    by_cases ha : Tickets.isAvailRow r = true
    · rw [if_pos ha, if_pos (cell_zero_ne_of_avail ha)]
      exact ih.cons₂ r
    · rw [if_neg ha]
      by_cases hc : (cell r 0 != "") = true
      · rw [if_pos hc]
        exact ih.cons r
      · rw [if_neg hc]
        exact ih

/-! ## Equational description of `assignAvailableTicket` -/

lemma assign_eq_of_failGet (s : SysState) (h : s.failTicketsGet = true) :
    Tickets.assignAvailableTicket s =
      (Except.error Err.storeUnavailable, { s with ticketsReads := s.ticketsReads + 1 }) := by
  simp [Tickets.assignAvailableTicket, ticketsValuesGet, h]

lemma assign_eq_of_none (s : SysState) (hfg : s.failTicketsGet = false)
    (hj : findFirstIdx Tickets.isAvailRow (s.ticketRows.drop 1) = none) :
    Tickets.assignAvailableTicket s =
      (Except.error Err.noTickets, { s with ticketsReads := s.ticketsReads + 1 }) := by
  rw [List.drop_one] at hj
  simp [Tickets.assignAvailableTicket, ticketsValuesGet, hfg, findBodyIdx, hj]

lemma assign_eq_of_failUpdate (s : SysState) (j : Nat) (hfg : s.failTicketsGet = false)
    (hfu : s.failTicketsUpdate = true)
    (hj : findFirstIdx Tickets.isAvailRow (s.ticketRows.drop 1) = some j) :
    Tickets.assignAvailableTicket s =
      (Except.error Err.storeUnavailable, { s with ticketsReads := s.ticketsReads + 1 }) := by
  rw [List.drop_one] at hj
  simp [Tickets.assignAvailableTicket, ticketsValuesGet, ticketsValuesUpdateCell,
    hfg, hfu, findBodyIdx, hj]

lemma assign_eq_of_found (s : SysState) (j : Nat) (hfg : s.failTicketsGet = false)
    (hfu : s.failTicketsUpdate = false)
    (hj : findFirstIdx Tickets.isAvailRow (s.ticketRows.drop 1) = some j) :
    Tickets.assignAvailableTicket s =
      (Except.ok (cell (s.ticketRows.getD (j + 1) []) 0),
       { s with ticketsReads := s.ticketsReads + 1,
                ticketRows := s.ticketRows.set (j + 1)
                  (setCell (s.ticketRows.getD (j + 1) []) 1 "Atribuído"),
                ticketsCache := none, ticketsCacheTime := 0 }) := by
  rw [List.drop_one] at hj
  simp [Tickets.assignAvailableTicket, ticketsValuesGet, ticketsValuesUpdateCell,
    Tickets.invalidateCache, hfg, hfu, findBodyIdx, hj]

lemma assign_ok_avail {s s' : SysState} {tk : String}
    (h : Tickets.assignAvailableTicket s = (Except.ok tk, s')) :
    availableTicketsList s.ticketRows = tk :: availableTicketsList s'.ticketRows ∧
    ticketCellValues s'.ticketRows = ticketCellValues s.ticketRows := by
  by_cases hfg : s.failTicketsGet = true
  · rw [assign_eq_of_failGet s hfg] at h
    exact absurd (congrArg Prod.fst h) (by simp)
  · have hfg' : s.failTicketsGet = false := by simpa using hfg
    rcases hj : findFirstIdx Tickets.isAvailRow (s.ticketRows.drop 1) with _ | j
    · rw [assign_eq_of_none s hfg' hj] at h
      exact absurd (congrArg Prod.fst h) (by simp)
    · by_cases hfu : s.failTicketsUpdate = true
      · rw [assign_eq_of_failUpdate s j hfg' hfu hj] at h
        exact absurd (congrArg Prod.fst h) (by simp)
      · have hfu' : s.failTicketsUpdate = false := by simpa using hfu
        rw [assign_eq_of_found s j hfg' hfu' hj] at h
        rw [Prod.mk.injEq] at h
        obtain ⟨h1, h2⟩ := h
        have htk : tk = cell (s.ticketRows.getD (j + 1) []) 0 :=
          (Except.ok.inj h1).symm
        subst htk
        subst h2
        rcases hrows : s.ticketRows with _ | ⟨r0, body⟩
        · rw [hrows] at hj
          simp [findFirstIdx] at hj
        · rw [hrows] at hj
          simp only [List.drop_succ_cons, List.drop_zero] at hj
          obtain ⟨_, hav, hcells⟩ := findFirstIdx_avail_mark body j hj
          constructor
          · simpa [availableTicketsList, hrows] using hav
          · simpa [ticketCellValues, hrows] using hcells

lemma assignMany_succ (n : Nat) (s : SysState) :
    (assignMany (n + 1) s).1 = [] ∨
    ∃ tk s', Tickets.assignAvailableTicket s = (Except.ok tk, s') ∧
      (assignMany (n + 1) s).1 = tk :: (assignMany n s').1 := by
  rcases hA : Tickets.assignAvailableTicket s with ⟨r, s1⟩
  cases r with
  | error e =>
    left
    simp [assignMany, hA]
  | ok tk =>
    right
    exact ⟨tk, s1, rfl, by simp only [assignMany, hA]⟩

lemma assignMany_mem :
    ∀ (n : Nat) (s : SysState) (x : String), x ∈ (assignMany n s).1 →
      x ∈ availableTicketsList s.ticketRows := by
  intro n
  induction n with
  | zero =>
    intro s x hx
    simp [assignMany] at hx
  | succ n ih =>
    intro s x hx
    rcases assignMany_succ n s with h | ⟨tk, s', hA, heq⟩
    · rw [h] at hx
      simp at hx
    · rw [heq] at hx
      obtain ⟨hav, _⟩ := assign_ok_avail hA
      rw [hav]
      rcases List.mem_cons.mp hx with rfl | hx'
      · exact List.mem_cons_self _ _
      · exact List.mem_cons_of_mem _ (ih s' x hx')

lemma assignMany_nodup_avail :
    ∀ (n : Nat) (s : SysState), (availableTicketsList s.ticketRows).Nodup →
      ((assignMany n s).1).Nodup := by
  intro n
  induction n with
  | zero =>
    intro s h
    simp [assignMany]
  | succ n ih =>
    intro s h
    rcases assignMany_succ n s with heq | ⟨tk, s', hA, heq⟩
    · rw [heq]
      exact List.nodup_nil
    · rw [heq]
      obtain ⟨hav, _⟩ := assign_ok_avail hA
      rw [hav] at h
      rw [List.nodup_cons] at h
      refine List.nodup_cons.mpr ⟨?_, ih s' h.2⟩
      intro hmem
      exact h.1 (assignMany_mem n s' tk hmem)

/-- C1: the ticket values returned by successful `assignAvailableTicket`
calls executed one at a time (the situation inside the Orders write
lock) are pairwise distinct, provided each ticket value occupies one row
of the sheet.  Each successful call writes the non-empty marker into the
status cell of the row it returns before any later call scans, so the
returned values walk down the list of available tickets without
repetition: the collected results of any number of sequential calls form
a `Nodup` list. -/
theorem assignAvailableTicket_unique (n : Nat) (s : SysState)
    (h : (ticketCellValues s.ticketRows).Nodup) :
    ((assignMany n s).1).Nodup := by
  apply assignMany_nodup_avail
  have hsub : List.Sublist (availableTicketsList s.ticketRows)
      (ticketCellValues s.ticketRows) :=
    List.Sublist.map _ (filter_avail_sublist (s.ticketRows.drop 1))
  exact List.Nodup.sublist hsub h

/-- Witness for C1 at a concrete sheet with two available tickets,
running three sequential assignment calls. -/
theorem assignAvailableTicket_unique_witness :
    (ticketCellValues baseState.ticketRows).Nodup ∧
    ((assignMany 3 baseState).1).Nodup :=
  ⟨by decide, assignAvailableTicket_unique 3 baseState (by decide)⟩

/-- C4: for a single write-lock instance and any finite sequence of
tasks submitted through `withWriteLock`, executing the promise chain
built by `createWriteLock` (starting from the fulfilled root
`Promise.resolve()`) coincides with running the tasks strictly
sequentially in submission order: every submitter's promise settles
(`some`), the i-th submitter receives exactly the i-th task's outcome
(so a failing task rejects precisely its own submitter's promise), the
chain itself stays fulfilled after every task — including failing ones,
because the wrapper's `try`/`catch` returns normally — so every
subsequently queued task still runs, and the final state equals the
sequential fold of the tasks, i.e. the observed store mutation order is
the call-enqueue order.  (Cooperative single-scheduler concurrency is
modelled by this sequential chain semantics; real-time aspects such as
the 30-second wait timeout are outside the model.) -/
theorem writeLock_chain_serializes {σ ε α : Type}
    (fns : List (WriteLock.LockTask σ ε α)) (s : σ) :
    WriteLock.runChain (Except.ok ()) fns s =
      ((WriteLock.seqRunSpec fns s).1.map some,
       (Except.ok (), (WriteLock.seqRunSpec fns s).2)) := by
  induction fns generalizing s with
  | nil => rfl
  | cons fn fns ih =>
    rcases h : fn s with ⟨r, s1⟩
    simp [WriteLock.runChain, WriteLock.seqRunSpec, WriteLock.lockWrapper, h, ih s1]

/-- C3: `assignAvailableTicket` always performs a fresh, cache-bypassing
read of the ticket rows (its result ignores the cache contents, clause
three, and the equations of the first two clauses bump the store-read
counter even when a valid snapshot exists); if no row after the header
has a non-empty ticket cell and an empty status cell it fails with
`NoTicketsAvailable` writing nothing (rows and cache unchanged);
otherwise, for the first such row in row order, it writes the non-empty
marker `"Atribuído"` into that row's status cell, invalidates the
Tickets cache, and returns that row's ticket value. -/
theorem assignAvailableTicket_algorithm (s : SysState)
    (hfg : s.failTicketsGet = false) (hfu : s.failTicketsUpdate = false) :
    ((∀ r ∈ s.ticketRows.drop 1, Tickets.isAvailRow r = false) →
       Tickets.assignAvailableTicket s =
         (Except.error Err.noTickets, { s with ticketsReads := s.ticketsReads + 1 }))
  ∧ (∀ i, 0 < i → i < s.ticketRows.length →
       Tickets.isAvailRow (s.ticketRows.getD i []) = true →
       (∀ j, 0 < j → j < i → Tickets.isAvailRow (s.ticketRows.getD j []) = false) →
       Tickets.assignAvailableTicket s =
         (Except.ok (cell (s.ticketRows.getD i []) 0),
          { s with ticketsReads := s.ticketsReads + 1,
                   ticketRows := s.ticketRows.set i
                     (setCell (s.ticketRows.getD i []) 1 "Atribuído"),
                   ticketsCache := none, ticketsCacheTime := 0 }))
  ∧ (∀ c n, (Tickets.assignAvailableTicket
        { s with ticketsCache := c, ticketsCacheTime := n }).1
        = (Tickets.assignAvailableTicket s).1) := by
  refine ⟨?_, ?_, ?_⟩
  · intro hall
    exact assign_eq_of_none s hfg (findFirstIdx_eq_none_of _ _ hall)
  · intro i hi0 hilen hav hmin
    obtain ⟨k, rfl⟩ : ∃ k, i = k + 1 := ⟨i - 1, (Nat.succ_pred_eq_of_pos hi0).symm⟩
    have hgd : ∀ m : Nat, (s.ticketRows.drop 1).getD m [] = s.ticketRows.getD (m + 1) [] := by
      intro m
      cases s.ticketRows
      · rfl
      · rfl
    have hk : k < (s.ticketRows.drop 1).length := by
      rw [List.length_drop]
      omega
    have hj : findFirstIdx Tickets.isAvailRow (s.ticketRows.drop 1) = some k := by
      apply findFirstIdx_eq_some_of
      · exact hk
      · rw [hgd]
        exact hav
      · intro j hjk
        rw [hgd]
        exact hmin (j + 1) (Nat.succ_pos j) (by omega)
    exact assign_eq_of_found s k hfg hfu hj
  · intro c n
    rcases hj : findFirstIdx Tickets.isAvailRow (s.ticketRows.drop 1) with _ | j
    · rw [assign_eq_of_none s hfg hj,
        assign_eq_of_none { s with ticketsCache := c, ticketsCacheTime := n } hfg hj]
    · rw [assign_eq_of_found s j hfg hfu hj,
        assign_eq_of_found { s with ticketsCache := c, ticketsCacheTime := n } j hfg hfu hj]

/-- Witness for C3: on the concrete base sheet, the first available row
is row 1 and the call returns its ticket value, marking the row. -/
theorem assignAvailableTicket_algorithm_witness :
    (0 : Nat) < 1 ∧
    Tickets.assignAvailableTicket baseState =
      (Except.ok (cell (baseState.ticketRows.getD 1 []) 0),
       { baseState with ticketsReads := baseState.ticketsReads + 1,
                        ticketRows := baseState.ticketRows.set 1
                          (setCell (baseState.ticketRows.getD 1 []) 1 "Atribuído"),
                        ticketsCache := none, ticketsCacheTime := 0 }) :=
  ⟨by decide,
   (assignAvailableTicket_algorithm baseState rfl rfl).2.1 1 (by decide) (by decide)
     (by decide) (by
       intro j h1 h2
       exact absurd h2 (by omega))⟩

/-- C9: the per-resource cache read returns the stored snapshot with no
store access (state unchanged, read counter untouched) exactly when a
snapshot is present and its age is strictly below the 5-minute TTL;
otherwise it reads the range from the store (read counter bumped), skips
the header row, decodes the remaining rows, records them as the new
snapshot with the capture time, and returns them; `invalidate()`
unconditionally clears the snapshot and is idempotent.  Stated for both
the Orders and the Tickets module. -/
theorem cacheRead_ttl (tNow tCap : Nat) (s : SysState)
    (hog : s.failOrdersGet = false) (htg : s.failTicketsGet = false) :
    (∀ c, s.ordersCache = some c → tNow - s.ordersCacheTime < CACHE_TTL →
       Orders.readAllOrders tNow tCap s = (Except.ok c, s))
  ∧ ((s.ordersCache = none ∨ CACHE_TTL ≤ tNow - s.ordersCacheTime) →
       Orders.readAllOrders tNow tCap s =
         (Except.ok ((s.orderRows.drop 1).map Orders.rowToOrder),
          { s with ordersReads := s.ordersReads + 1,
                   ordersCache := some ((s.orderRows.drop 1).map Orders.rowToOrder),
                   ordersCacheTime := tCap }))
  ∧ (∀ c, s.ticketsCache = some c → tNow - s.ticketsCacheTime < CACHE_TTL →
       Tickets.readAllTickets tNow tCap s = (Except.ok c, s))
  ∧ ((s.ticketsCache = none ∨ CACHE_TTL ≤ tNow - s.ticketsCacheTime) →
       Tickets.readAllTickets tNow tCap s =
         (Except.ok (Tickets.decodeTickets s.ticketRows),
          { s with ticketsReads := s.ticketsReads + 1,
                   ticketsCache := some (Tickets.decodeTickets s.ticketRows),
                   ticketsCacheTime := tCap }))
  ∧ (Orders.invalidateCache s).ordersCache = none
  ∧ Orders.invalidateCache (Orders.invalidateCache s) = Orders.invalidateCache s
  ∧ (Tickets.invalidateCache s).ticketsCache = none
  ∧ Tickets.invalidateCache (Tickets.invalidateCache s) = Tickets.invalidateCache s := by
  refine ⟨?_, ?_, ?_, ?_, rfl, rfl, rfl, rfl⟩
  · intro c hc hlt
    simp [Orders.readAllOrders, hc, hlt]
  · intro h
    rcases hsc : s.ordersCache with _ | c
    · simp [Orders.readAllOrders, Orders.readAllOrdersFresh, ordersValuesGet, hsc, hog]
    · rcases h with h | h
      · rw [hsc] at h
        exact absurd h (by simp)
      · have hnlt : ¬(tNow - s.ordersCacheTime < CACHE_TTL) := Nat.not_lt.mpr h
        simp [Orders.readAllOrders, Orders.readAllOrdersFresh, ordersValuesGet, hsc, hog, hnlt]
  · intro c hc hlt
    simp [Tickets.readAllTickets, hc, hlt]
  · intro h
    rcases hsc : s.ticketsCache with _ | c
    · simp [Tickets.readAllTickets, Tickets.readAllTicketsFresh, ticketsValuesGet, hsc, htg]
    · rcases h with h | h
      · rw [hsc] at h
        exact absurd h (by simp)
      · have hnlt : ¬(tNow - s.ticketsCacheTime < CACHE_TTL) := Nat.not_lt.mpr h
        simp [Tickets.readAllTickets, Tickets.readAllTicketsFresh, ticketsValuesGet, hsc, htg, hnlt]

/-- Witness for C9: a cache-miss read on the concrete base state decodes
the one order row and records the snapshot with the capture time. -/
theorem cacheRead_ttl_witness :
    baseState.ordersCache = none ∧
    Orders.readAllOrders 0 7 baseState =
      (Except.ok ((baseState.orderRows.drop 1).map Orders.rowToOrder),
       { baseState with ordersReads := baseState.ordersReads + 1,
                        ordersCache := some ((baseState.orderRows.drop 1).map Orders.rowToOrder),
                        ordersCacheTime := 7 }) :=
  ⟨rfl, (cacheRead_ttl 0 7 baseState rfl rfl).2.1 (Or.inl rfl)⟩

/-! ## Equational helpers for `createOrder` -/

lemma readAllOrders_after_invalidate (tNow tCap : Nat) (s : SysState)
    (hog : s.failOrdersGet = false) :
    Orders.readAllOrders tNow tCap (Orders.invalidateCache s) =
      (Except.ok ((s.orderRows.drop 1).map Orders.rowToOrder),
       { s with ordersCache := some ((s.orderRows.drop 1).map Orders.rowToOrder),
                ordersCacheTime := tCap,
                ordersReads := s.ordersReads + 1 }) := by
  simp [Orders.readAllOrders, Orders.readAllOrdersFresh, Orders.invalidateCache,
    ordersValuesGet, hog]

/-- C5: when no ticket row is available and the (possibly empty) OAB
number matches no existing order, `createOrder` fails with
`NoTicketsAvailable` and appends no order row: the orders sheet is
unchanged by the failed call, because allocation happens before the
append. -/
theorem createOrder_noTickets_no_append (data : CreateOrderData)
    (uuid nowSol nowLib : String) (tNow tCap : Nat) (s : SysState)
    (hog : s.failOrdersGet = false) (hfg : s.failTicketsGet = false)
    (hna : ∀ r ∈ s.ticketRows.drop 1, Tickets.isAvailRow r = false)
    (hdup : data.numero_oab.trim = "" ∨
      ((s.orderRows.drop 1).map Orders.rowToOrder).find?
        (fun o => o.numero_oab.trim == data.numero_oab.trim) = none) :
    (Orders.createOrder data uuid nowSol nowLib tNow tCap s).1 =
        Except.error Err.noTickets ∧
    (Orders.createOrder data uuid nowSol nowLib tNow tCap s).2.orderRows =
        s.orderRows := by
  have hread := readAllOrders_after_invalidate tNow tCap s hog
  have htail : (List.map Orders.rowToOrder s.orderRows).tail
      = List.map Orders.rowToOrder (List.drop 1 s.orderRows) := by
    cases s.orderRows
    · rfl
    · rfl
  have hexn : (if data.numero_oab.trim = "" then (none : Option Order) else
      List.find? (fun o => o.numero_oab.trim == data.numero_oab.trim)
        ((List.map Orders.rowToOrder s.orderRows).tail)) = none := by
    rcases hdup with h | h
    · simp [h]
    · rw [htail, h]
      split
      · rfl
      · rfl
  have hassign := assign_eq_of_none
    { s with ordersCache := some ((s.orderRows.drop 1).map Orders.rowToOrder),
             ordersCacheTime := tCap, ordersReads := s.ordersReads + 1 }
    hfg (findFirstIdx_eq_none_of _ _ hna)
  simp at hread hassign
  constructor
  · simp [Orders.createOrder, hread, hexn, Orders.allocStep, hassign]
  · simp [Orders.createOrder, hread, hexn, Orders.allocStep, hassign]

/-! Concrete evaluation of `String.trim` (whose recursors do not reduce
in the kernel) for the strings used by the witnesses. -/

lemma twa_empty : Substring.takeWhileAux "" "".endPos Char.isWhitespace 0 = 0 := by
  rw [Substring.takeWhileAux]
  rw [dif_neg (by decide)]

lemma trwa_empty : Substring.takeRightWhileAux "" 0 Char.isWhitespace "".endPos = "".endPos := by
  rw [Substring.takeRightWhileAux]
  rw [dif_neg (by decide)]

lemma trim_empty : "".trim = "" := by
  show Substring.toString (Substring.trim (String.toSubstring "")) = ""
  rw [show String.toSubstring "" = Substring.mk "" 0 "".endPos from rfl]
  rw [show Substring.trim (Substring.mk "" 0 "".endPos) =
    Substring.mk "" (Substring.takeWhileAux "" "".endPos Char.isWhitespace 0)
      (Substring.takeRightWhileAux "" (Substring.takeWhileAux "" "".endPos Char.isWhitespace 0)
        Char.isWhitespace "".endPos) from rfl]
  rw [twa_empty, trwa_empty]
  rfl

lemma twa_123 : Substring.takeWhileAux "123" "123".endPos Char.isWhitespace 0 = 0 := by
  rw [Substring.takeWhileAux]
  rw [dif_pos (by decide), if_neg (by decide)]

lemma trwa_123 :
    Substring.takeRightWhileAux "123" 0 Char.isWhitespace "123".endPos = "123".endPos := by
  rw [Substring.takeRightWhileAux]
  rw [dif_pos (by decide)]
  rw [if_pos (by decide)]

lemma trim_123 : "123".trim = "123" := by
  show Substring.toString (Substring.trim (String.toSubstring "123")) = "123"
  rw [show String.toSubstring "123" = Substring.mk "123" 0 "123".endPos from rfl]
  rw [show Substring.trim (Substring.mk "123" 0 "123".endPos) =
    Substring.mk "123" (Substring.takeWhileAux "123" "123".endPos Char.isWhitespace 0)
      (Substring.takeRightWhileAux "123"
        (Substring.takeWhileAux "123" "123".endPos Char.isWhitespace 0)
        Char.isWhitespace "123".endPos) from rfl]
  rw [twa_123, trwa_123]
  rfl

/-- Witness for C5: a state whose only ticket rows are already assigned,
and a create request with an empty OAB number. -/
theorem createOrder_noTickets_no_append_witness :
    noAvailState.failOrdersGet = false ∧
    (Orders.createOrder plainCreateData "u-9" "d1" "d2" 0 0 noAvailState).1 =
      Except.error Err.noTickets ∧
    (Orders.createOrder plainCreateData "u-9" "d1" "d2" 0 0 noAvailState).2.orderRows =
      noAvailState.orderRows := by
  refine ⟨rfl, ?_⟩
  exact createOrder_noTickets_no_append plainCreateData
    "u-9" "d1" "d2" 0 0 noAvailState rfl rfl (by decide) (Or.inl trim_empty)

/-- C2: with `n` the trimmed `numero_oab` — if `n` is non-empty and some
existing order row has trimmed `numero_oab` equal to `n`, `createOrder`
does not invoke the ticket allocator (tickets sheet and tickets read
counter untouched), appends a new order row with empty ticket and status
"Recusado", and returns a Conflict outcome carrying the new order plus
the pre-existing order's ticket and `data_solicitacao`.  Otherwise (`n`
empty or no match; an empty OAB is never a duplicate key) it invokes the
allocator (tickets read counter bumped), sets the ticket to the
allocated value — the first available ticket — and the status to
"Aprovado", and appends the row. -/
theorem createOrder_duplicate_policy (data : CreateOrderData)
    (uuid nowSol nowLib : String) (tNow tCap : Nat) (s : SysState)
    (hog : s.failOrdersGet = false) (hfg : s.failTicketsGet = false)
    (hfu : s.failTicketsUpdate = false) (hoa : s.failOrdersAppend = false) :
    (∀ eo, data.numero_oab.trim ≠ "" →
      ((s.orderRows.drop 1).map Orders.rowToOrder).find?
          (fun o => o.numero_oab.trim == data.numero_oab.trim) = some eo →
      (Orders.createOrder data uuid nowSol nowLib tNow tCap s).1 =
        Except.ok { order := deniedOrder data uuid nowSol nowLib,
                    conflict := some { existing_ticket := eo.ticket,
                                       existing_date := eo.data_solicitacao } } ∧
      (Orders.createOrder data uuid nowSol nowLib tNow tCap s).2.orderRows =
        s.orderRows ++ [Orders.orderToRow (deniedOrder data uuid nowSol nowLib)] ∧
      (Orders.createOrder data uuid nowSol nowLib tNow tCap s).2.ticketRows =
        s.ticketRows ∧
      (Orders.createOrder data uuid nowSol nowLib tNow tCap s).2.ticketsReads =
        s.ticketsReads)
  ∧ (∀ tk ts, (data.numero_oab.trim = "" ∨
        ((s.orderRows.drop 1).map Orders.rowToOrder).find?
          (fun o => o.numero_oab.trim == data.numero_oab.trim) = none) →
      availableTicketsList s.ticketRows = tk :: ts →
      (Orders.createOrder data uuid nowSol nowLib tNow tCap s).1 =
        Except.ok { order := approvedOrder data uuid nowSol nowLib tk,
                    conflict := none } ∧
      (Orders.createOrder data uuid nowSol nowLib tNow tCap s).2.orderRows =
        s.orderRows ++ [Orders.orderToRow (approvedOrder data uuid nowSol nowLib tk)] ∧
      (Orders.createOrder data uuid nowSol nowLib tNow tCap s).2.ticketsReads =
        s.ticketsReads + 1) := by
  have hread := readAllOrders_after_invalidate tNow tCap s hog
  have htail : (List.map Orders.rowToOrder s.orderRows).tail
      = List.map Orders.rowToOrder (List.drop 1 s.orderRows) := by
    cases s.orderRows
    · rfl
    · rfl
  simp [Orders.invalidateCache, hog, hfg, hfu, hoa] at hread
  constructor
  · intro eo hne hfind
    have hexs : (if data.numero_oab.trim = "" then (none : Option Order) else
        List.find? (fun o => o.numero_oab.trim == data.numero_oab.trim)
          ((List.map Orders.rowToOrder s.orderRows).tail)) = some eo := by
      rw [htail, if_neg hne]
      exact hfind
    refine ⟨?_, ?_, ?_, ?_⟩ <;>
      simp [Orders.createOrder, Orders.invalidateCache, hog, hfg, hfu, hoa,
        hread, hexs, Orders.allocStep, ordersValuesAppend,
        Orders.orderToRow, deniedOrder]
  · intro tk ts hdup havl
    have hexn : (if data.numero_oab.trim = "" then (none : Option Order) else
        List.find? (fun o => o.numero_oab.trim == data.numero_oab.trim)
          ((List.map Orders.rowToOrder s.orderRows).tail)) = none := by
      rcases hdup with h | h
      · simp [h]
      · rw [htail, h]
        split
        · rfl
        · rfl
    rcases hj : findFirstIdx Tickets.isAvailRow (s.ticketRows.drop 1) with _ | j
    · exfalso
      have hfil := filter_eq_nil_of_findFirstIdx_none _ _ hj
      have hnil : availableTicketsList s.ticketRows = [] := by
        unfold availableTicketsList
        rw [hfil]
        rfl
      rw [havl] at hnil
      exact List.cons_ne_nil tk ts hnil
    · have hgd : (s.ticketRows.drop 1).getD j [] = s.ticketRows.getD (j + 1) [] := by
        cases s.ticketRows
        · rfl
        · rfl
      have hmark := findFirstIdx_avail_mark (s.ticketRows.drop 1) j hj
      have htk : tk = cell (s.ticketRows.getD (j + 1) []) 0 := by
        have hv := hmark.2.1
        rw [show ((s.ticketRows.drop 1).filter Tickets.isAvailRow).map (fun r => cell r 0)
            = availableTicketsList s.ticketRows from rfl, havl] at hv
        have h2 := (List.cons.injEq _ _ _ _).mp hv
        rw [← hgd]
        exact h2.1
      subst htk
      have hassign := assign_eq_of_found
        { s with ordersCache := some ((s.orderRows.drop 1).map Orders.rowToOrder),
                 ordersCacheTime := tCap, ordersReads := s.ordersReads + 1 }
        j hfg hfu hj
      simp [hog, hfg, hfu, hoa] at hassign
      refine ⟨?_, ?_, ?_⟩ <;>
        simp [Orders.createOrder, Orders.invalidateCache, hog, hfg, hfu, hoa,
          hread, hexn, Orders.allocStep, hassign,
          ordersValuesAppend, Orders.orderToRow, approvedOrder]

/-- Witness for C2: a duplicate-OAB create on the concrete base state is
persisted as "Recusado" with no ticket consumed, and the conflict
payload carries the pre-existing order's ticket and request date. -/
theorem createOrder_duplicate_policy_witness :
    dupData.numero_oab.trim ≠ "" ∧
    (Orders.createOrder dupData "u-7" "d1" "d2" 0 0 baseState).1 =
      Except.ok { order := deniedOrder dupData "u-7" "d1" "d2",
                  conflict := some { existing_ticket := anaOrder.ticket,
                                     existing_date := anaOrder.data_solicitacao } } ∧
    (Orders.createOrder dupData "u-7" "d1" "d2" 0 0 baseState).2.ticketsReads =
      baseState.ticketsReads := by
  have hne : dupData.numero_oab.trim ≠ "" := by
    show "123".trim ≠ ""
    rw [trim_123]
    decide
  have hfind : ((baseState.orderRows.drop 1).map Orders.rowToOrder).find?
      (fun o => o.numero_oab.trim == dupData.numero_oab.trim) = some anaOrder := by
    simp [baseState, Orders.rowToOrder, cell, List.find?, anaOrder, dupData]
  have h := (createOrder_duplicate_policy dupData "u-7" "d1" "d2" 0 0 baseState
    rfl rfl rfl rfl).1 anaOrder hne hfind
  exact ⟨hne, h.1, h.2.2.2⟩

/-- C8: `updateOrder(uuid, partialData)` fails `NotFound` without
touching the orders sheet when no non-header row carries the uuid;
otherwise the rewritten row keeps the uuid unchanged, keeps every field
absent from the partial input identical to its pre-update value, sets
exactly the supplied fields, and the sheet changes only at that row
(rewritten as the merged full row). -/
theorem updateOrder_partial_merge (uuid : String) (data : UpdateOrderData)
    (s : SysState)
    (hog : s.failOrdersGet = false) (hou : s.failOrdersUpdate = false) :
    (findBodyIdx (fun r => cell r 0 == uuid) s.orderRows = none →
       (Orders.updateOrder uuid data s).1 = Except.error Err.notFound ∧
       (Orders.updateOrder uuid data s).2.orderRows = s.orderRows)
  ∧ (∀ i, findBodyIdx (fun r => cell r 0 == uuid) s.orderRows = some i →
       ∃ upd : Order,
         (Orders.updateOrder uuid data s).1 = Except.ok upd ∧
         (Orders.updateOrder uuid data s).2.orderRows =
           s.orderRows.set i (Orders.orderToRow upd) ∧
         upd.uuid = (Orders.rowToOrder (s.orderRows.getD i [])).uuid ∧
         ((data.ticket = none →
             upd.ticket = (Orders.rowToOrder (s.orderRows.getD i [])).ticket) ∧
          (∀ v, data.ticket = some v → upd.ticket = v)) ∧
         ((data.numero_oab = none →
             upd.numero_oab = (Orders.rowToOrder (s.orderRows.getD i [])).numero_oab) ∧
          (∀ v, data.numero_oab = some v → upd.numero_oab = v)) ∧
         ((data.nome_completo = none →
             upd.nome_completo = (Orders.rowToOrder (s.orderRows.getD i [])).nome_completo) ∧
          (∀ v, data.nome_completo = some v → upd.nome_completo = v)) ∧
         ((data.subsecao = none →
             upd.subsecao = (Orders.rowToOrder (s.orderRows.getD i [])).subsecao) ∧
          (∀ v, data.subsecao = some v → upd.subsecao = v)) ∧
         ((data.data_solicitacao = none →
             upd.data_solicitacao = (Orders.rowToOrder (s.orderRows.getD i [])).data_solicitacao) ∧
          (∀ v, data.data_solicitacao = some v → upd.data_solicitacao = v)) ∧
         ((data.data_liberacao = none →
             upd.data_liberacao = (Orders.rowToOrder (s.orderRows.getD i [])).data_liberacao) ∧
          (∀ v, data.data_liberacao = some v → upd.data_liberacao = v)) ∧
         ((data.status = none →
             upd.status = (Orders.rowToOrder (s.orderRows.getD i [])).status) ∧
          (∀ v, data.status = some v → upd.status = v)) ∧
         ((data.anotacoes = none →
             upd.anotacoes = (Orders.rowToOrder (s.orderRows.getD i [])).anotacoes) ∧
          (∀ v, data.anotacoes = some v → upd.anotacoes = v))) := by
  have hget : ordersValuesGet (Orders.invalidateCache s) =
      (Except.ok s.orderRows,
       { s with ordersCache := none, ordersCacheTime := 0,
                ordersReads := s.ordersReads + 1 }) := by
    simp [ordersValuesGet, Orders.invalidateCache, hog]
  simp [Orders.invalidateCache, hog, hou] at hget
  constructor
  · intro hnone
    constructor <;>
      simp [Orders.updateOrder, Orders.invalidateCache, hog, hou, hget, hnone]
  · intro i hsome
    refine ⟨{ uuid := (Orders.rowToOrder (s.orderRows.getD i [])).uuid,
              ticket := data.ticket.getD (Orders.rowToOrder (s.orderRows.getD i [])).ticket,
              numero_oab := data.numero_oab.getD (Orders.rowToOrder (s.orderRows.getD i [])).numero_oab,
              nome_completo := data.nome_completo.getD (Orders.rowToOrder (s.orderRows.getD i [])).nome_completo,
              subsecao := data.subsecao.getD (Orders.rowToOrder (s.orderRows.getD i [])).subsecao,
              data_solicitacao := data.data_solicitacao.getD (Orders.rowToOrder (s.orderRows.getD i [])).data_solicitacao,
              data_liberacao := data.data_liberacao.getD (Orders.rowToOrder (s.orderRows.getD i [])).data_liberacao,
              status := data.status.getD (Orders.rowToOrder (s.orderRows.getD i [])).status,
              anotacoes := data.anotacoes.getD (Orders.rowToOrder (s.orderRows.getD i [])).anotacoes },
      ?_, ?_, rfl, ?_, ?_, ?_, ?_, ?_, ?_, ?_, ?_⟩
    · simp [Orders.updateOrder, Orders.invalidateCache, hog, hou, hget, hsome,
        ordersValuesUpdateRow]
    · simp [Orders.updateOrder, Orders.invalidateCache, hog, hou, hget, hsome,
        ordersValuesUpdateRow]
    all_goals
      constructor
      · intro h
        simp [h]
      · intro v h
        simp [h]

/-- Witness for C8: updating only the status of the stored order leaves
its uuid and ticket at their pre-update values. -/
theorem updateOrder_partial_merge_witness :
    findBodyIdx (fun r => cell r 0 == "u-1") baseState.orderRows = some 1 ∧
    ∃ upd : Order,
      (Orders.updateOrder "u-1" updStatusData baseState).1 = Except.ok upd ∧
      upd.status = "Recusado" ∧ upd.ticket = anaOrder.ticket ∧ upd.uuid = "u-1" := by
  refine ⟨by decide, ?_⟩
  obtain ⟨upd, e1, e2, hu, p1, p2, p3, p4, p5, p6, p7, p8⟩ :=
    (updateOrder_partial_merge "u-1" updStatusData baseState rfl rfl).2 1 (by decide)
  exact ⟨upd, e1, p7.2 "Recusado" rfl, (p1.1 rfl).trans rfl, hu.trans rfl⟩

lemma getD_set_ne (l : List Row) (i j : Nat) (a : Row) (h : j ≠ i) :
    (l.set i a).getD j [] = l.getD j [] := by
  induction l generalizing i j with
  | nil => simp
  | cons x xs ih =>
    cases i with
    | zero =>
      cases j with
      | zero => exact absurd rfl h
      | succ j => simp [List.getD_cons_succ]
    | succ i =>
      cases j with
      | zero => simp
      | succ j => simpa [List.getD_cons_succ, List.set_cons_succ] using ih i j (by omega)

lemma getD_set_self (l : List Row) (i : Nat) (a : Row) (h : i < l.length) :
    (l.set i a).getD i [] = a := by
  induction l generalizing i with
  | nil => simp at h
  | cons x xs ih =>
    cases i with
    | zero => rfl
    | succ i => simpa using ih i (by simpa using h)

lemma findFirstIdx_lt (p : Row → Bool) :
    ∀ (l : List Row) (j : Nat), findFirstIdx p l = some j → j < l.length := by
  intro l
  induction l with
  | nil =>
    intro j h
    simp [findFirstIdx] at h
  | cons r rs ih =>
    intro j h
    simp only [findFirstIdx] at h
    by_cases hr : p r = true
    · rw [if_pos hr] at h
      obtain rfl : j = 0 := (Option.some.inj h).symm
      simp
    · rw [if_neg hr] at h
      rcases h' : findFirstIdx p rs with _ | j'
      · rw [h'] at h
        simp at h
      · rw [h'] at h
        simp only [Option.map_some'] at h
        obtain rfl : j = j' + 1 := (Option.some.inj h).symm
        have := ih j' h'
        simp
        omega

lemma findBodyIdx_lt (p : Row → Bool) (rows : List Row) (i : Nat)
    (h : findBodyIdx p rows = some i) : i < rows.length := by
  unfold findBodyIdx at h
  rcases h' : findFirstIdx p (rows.drop 1) with _ | j
  · rw [h'] at h
    simp at h
  · rw [h'] at h
    simp only [Option.map_some'] at h
    obtain rfl : i = j + 1 := (Option.some.inj h).symm
    have hlt := findFirstIdx_lt p (rows.drop 1) j h'
    rw [List.length_drop] at hlt
    omega

/-- C10: a successful `updateTicket(oldTicket, newTicket)` rename leaves
the matched row's status cell unchanged in the store — only the
ticket-identifier cell (column A) of that row is overwritten, every
other row is untouched — and the returned `Ticket` carries the
pre-rename status value, so renaming never changes a ticket's
assigned/available state. -/
theorem updateTicket_preserves_status (oldT newT : String) (s : SysState)
    (hg : s.failTicketsGet = false) (hu : s.failTicketsUpdate = false)
    (i : Nat) (hi : findBodyIdx (fun r => cell r 0 == oldT) s.ticketRows = some i) :
    (Tickets.updateTicket oldT newT s).1 =
      Except.ok { ticket := newT, status := cell (s.ticketRows.getD i []) 1 } ∧
    (Tickets.updateTicket oldT newT s).2.ticketRows =
      s.ticketRows.set i (setCell (s.ticketRows.getD i []) 0 newT) ∧
    cell ((Tickets.updateTicket oldT newT s).2.ticketRows.getD i []) 1 =
      cell (s.ticketRows.getD i []) 1 ∧
    (∀ j, j ≠ i → (Tickets.updateTicket oldT newT s).2.ticketRows.getD j [] =
      s.ticketRows.getD j []) := by
  have hlen := findBodyIdx_lt _ _ _ hi
  have hget : ticketsValuesGet (Tickets.invalidateCache s) =
      (Except.ok s.ticketRows,
       { s with ticketsCache := none, ticketsCacheTime := 0,
                ticketsReads := s.ticketsReads + 1 }) := by
    simp [ticketsValuesGet, Tickets.invalidateCache, hg]
  simp [Tickets.invalidateCache, hg, hu] at hget
  have hmain : Tickets.updateTicket oldT newT s =
      (Except.ok { ticket := newT, status := cell (s.ticketRows.getD i []) 1 },
       { s with ticketsCache := none, ticketsCacheTime := 0,
                ticketsReads := s.ticketsReads + 1,
                ticketRows := s.ticketRows.set i
                  (setCell (s.ticketRows.getD i []) 0 newT) }) := by
    simp [Tickets.updateTicket, Tickets.invalidateCache, hg, hu, hget, hi,
      ticketsValuesUpdateCell]
  rw [hmain]
  refine ⟨rfl, rfl, ?_, ?_⟩
  · show cell ((s.ticketRows.set i (setCell (s.ticketRows.getD i []) 0 newT)).getD i []) 1
      = cell (s.ticketRows.getD i []) 1
    rw [getD_set_self _ _ _ (by simpa using hlen), cell_setCell_zero_one]
  · intro j hj
    exact getD_set_ne _ _ _ _ hj

/-- Witness for C10: renaming the already-assigned ticket "T2" keeps its
"Atribuído" status in the returned record. -/
theorem updateTicket_preserves_status_witness :
    findBodyIdx (fun r => cell r 0 == "T2") baseState.ticketRows = some 2 ∧
    (Tickets.updateTicket "T2" "T9" baseState).1 =
      Except.ok { ticket := "T9", status := "Atribuído" } :=
  ⟨by decide,
   (updateTicket_preserves_status "T2" "T9" baseState rfl rfl 2 (by decide)).1⟩

/-- Shared helper: a store failure of the tickets read inside the
allocator call of `createOrder` (no duplicate OAB, so the allocator is
invoked) is converted into `NoTicketsAvailable` by the
`catch (err) { ... throw new NoTicketsError() }` block. -/
lemma createOrder_allocFail_noTickets (data : CreateOrderData)
    (uuid nowSol nowLib : String) (tNow tCap : Nat) (s : SysState)
    (hog : s.failOrdersGet = false) (hfg : s.failTicketsGet = true)
    (hdup : data.numero_oab.trim = "" ∨
      ((s.orderRows.drop 1).map Orders.rowToOrder).find?
        (fun o => o.numero_oab.trim == data.numero_oab.trim) = none) :
    (Orders.createOrder data uuid nowSol nowLib tNow tCap s).1 =
      Except.error Err.noTickets := by
  have hread := readAllOrders_after_invalidate tNow tCap s hog
  have htail : (List.map Orders.rowToOrder s.orderRows).tail
      = List.map Orders.rowToOrder (List.drop 1 s.orderRows) := by
    cases s.orderRows
    · rfl
    · rfl
  have hexn : (if data.numero_oab.trim = "" then (none : Option Order) else
      List.find? (fun o => o.numero_oab.trim == data.numero_oab.trim)
        ((List.map Orders.rowToOrder s.orderRows).tail)) = none := by
    rcases hdup with h | h
    · simp [h]
    · rw [htail, h]
      split
      · rfl
      · rfl
  have hassign := assign_eq_of_failGet
    { s with ordersCache := some ((s.orderRows.drop 1).map Orders.rowToOrder),
             ordersCacheTime := tCap, ordersReads := s.ordersReads + 1 } hfg
  simp [Orders.invalidateCache, hog, hfg] at hread hassign
  simp [Orders.createOrder, Orders.invalidateCache, hog, hfg, hread, hexn,
    Orders.allocStep, hassign]

/-- Shared helper: a store failure of the tickets status-cell update
inside the allocator call of `createOrder` (an available row exists, so
the update is attempted) is likewise converted into
`NoTicketsAvailable` by the same catch block. -/
lemma createOrder_allocUpdateFail_noTickets (data : CreateOrderData)
    (uuid nowSol nowLib : String) (tNow tCap : Nat) (s : SysState) (j : Nat)
    (hog : s.failOrdersGet = false) (hfg : s.failTicketsGet = false)
    (hfu : s.failTicketsUpdate = true)
    (hj : findFirstIdx Tickets.isAvailRow (s.ticketRows.drop 1) = some j)
    (hdup : data.numero_oab.trim = "" ∨
      ((s.orderRows.drop 1).map Orders.rowToOrder).find?
        (fun o => o.numero_oab.trim == data.numero_oab.trim) = none) :
    (Orders.createOrder data uuid nowSol nowLib tNow tCap s).1 =
      Except.error Err.noTickets := by
  have hread := readAllOrders_after_invalidate tNow tCap s hog
  have htail : (List.map Orders.rowToOrder s.orderRows).tail
      = List.map Orders.rowToOrder (List.drop 1 s.orderRows) := by
    cases s.orderRows
    · rfl
    · rfl
  have hexn : (if data.numero_oab.trim = "" then (none : Option Order) else
      List.find? (fun o => o.numero_oab.trim == data.numero_oab.trim)
        ((List.map Orders.rowToOrder s.orderRows).tail)) = none := by
    rcases hdup with h | h
    · simp [h]
    · rw [htail, h]
      split
      · rfl
      · rfl
  have hassign := assign_eq_of_failUpdate
    { s with ordersCache := some ((s.orderRows.drop 1).map Orders.rowToOrder),
             ordersCacheTime := tCap, ordersReads := s.ordersReads + 1 } j hfg hfu hj
  simp [Orders.invalidateCache, hog, hfg, hfu] at hread hassign
  simp [Orders.createOrder, Orders.invalidateCache, hog, hfg, hfu, hread, hexn,
    Orders.allocStep, hassign]

/-- Counterexample for C6: with the tickets-sheet read failing at the
store transport during the allocator call, `createOrder` reports
`NoTicketsAvailable`, not the store failure — the claim that the store
failure is delivered unconverted is false on this input. -/
theorem createOrder_swallows_store_failure_cex :
    (Orders.createOrder plainCreateData "u-8" "d1" "d2" 0 0 failGetState).1 =
      Except.error Err.noTickets ∧
    Err.noTickets ≠ Err.storeUnavailable := by
  constructor
  · exact createOrder_allocFail_noTickets plainCreateData "u-8" "d1" "d2" 0 0
      failGetState rfl rfl (Or.inl trim_empty)
  · decide

/-- C6 amended: every failure of a core write operation is surfaced as a
typed outcome, except that a store/transport failure occurring while the
allocator reads or updates the tickets sheet inside `createOrder` is
converted into `NoTicketsAvailable` by `createOrder`'s catch-all and
delivered as that, not as the store failure.  Clause one covers a
failing tickets read; clause two a failing status-cell update (which the
allocator attempts exactly when an available row exists). -/
theorem createOrder_error_conversion (data : CreateOrderData)
    (uuid nowSol nowLib : String) (tNow tCap : Nat) (s : SysState)
    (hog : s.failOrdersGet = false)
    (hdup : data.numero_oab.trim = "" ∨
      ((s.orderRows.drop 1).map Orders.rowToOrder).find?
        (fun o => o.numero_oab.trim == data.numero_oab.trim) = none) :
    (s.failTicketsGet = true →
      (Orders.createOrder data uuid nowSol nowLib tNow tCap s).1 =
        Except.error Err.noTickets) ∧
    (∀ j, s.failTicketsGet = false → s.failTicketsUpdate = true →
      findFirstIdx Tickets.isAvailRow (s.ticketRows.drop 1) = some j →
      (Orders.createOrder data uuid nowSol nowLib tNow tCap s).1 =
        Except.error Err.noTickets) := by
  constructor
  · intro hfg
    exact createOrder_allocFail_noTickets data uuid nowSol nowLib tNow tCap s
      hog hfg hdup
  · intro j hfg hfu hj
    exact createOrder_allocUpdateFail_noTickets data uuid nowSol nowLib tNow tCap s j
      hog hfg hfu hj hdup

/-- Witness for the amended C6: a failing tickets read and a failing
tickets status update each surface as `NoTicketsAvailable`. -/
theorem createOrder_error_conversion_witness :
    failGetState.failTicketsGet = true ∧
    (Orders.createOrder plainCreateData "w-6" "d1" "d2" 3 4 failGetState).1 =
      Except.error Err.noTickets ∧
    failUpdState.failTicketsUpdate = true ∧
    (Orders.createOrder plainCreateData "w-6" "d1" "d2" 3 4 failUpdState).1 =
      Except.error Err.noTickets := by
  refine ⟨rfl, ?_, rfl, ?_⟩
  · exact (createOrder_error_conversion plainCreateData "w-6" "d1" "d2" 3 4
      failGetState rfl (Or.inl trim_empty)).1 rfl
  · exact (createOrder_error_conversion plainCreateData "w-6" "d1" "d2" 3 4
      failUpdState rfl (Or.inl trim_empty)).2 0 rfl rfl (by decide)

/-- Shared helper: every exit of `updateOrder` — transport failure on
the read, `NotFound`, transport failure on the row update, or success —
leaves the orders cache cleared (the entry invalidation is never
repopulated, because the row is resolved by a raw `values.get`). -/
lemma updateOrder_ordersCache_none (uuid : String) (data : UpdateOrderData)
    (s : SysState) :
    (Orders.updateOrder uuid data s).2.ordersCache = none := by
  by_cases hg' : s.failOrdersGet = true
  · simp [Orders.updateOrder, Orders.invalidateCache, ordersValuesGet, hg']
  · have hg : s.failOrdersGet = false := by simpa using hg'
    rcases hf : findBodyIdx (fun r => cell r 0 == uuid) s.orderRows with _ | i
    · simp [Orders.updateOrder, Orders.invalidateCache, ordersValuesGet, hg, hf]
    · by_cases hu' : s.failOrdersUpdate = true
      · simp [Orders.updateOrder, Orders.invalidateCache, ordersValuesGet,
          ordersValuesUpdateRow, hg, hf, hu']
      · have hu : s.failOrdersUpdate = false := by simpa using hu'
        simp [Orders.updateOrder, Orders.invalidateCache, ordersValuesGet,
          ordersValuesUpdateRow, hg, hf, hu]

/-- Shared helper: every exit of `updateTicket` leaves the tickets cache
cleared, for the same reason. -/
lemma updateTicket_ticketsCache_none (oldT newT : String) (s : SysState) :
    (Tickets.updateTicket oldT newT s).2.ticketsCache = none := by
  by_cases hg' : s.failTicketsGet = true
  · simp [Tickets.updateTicket, Tickets.invalidateCache, ticketsValuesGet, hg']
  · have hg : s.failTicketsGet = false := by simpa using hg'
    rcases hf : findBodyIdx (fun r => cell r 0 == oldT) s.ticketRows with _ | i
    · simp [Tickets.updateTicket, Tickets.invalidateCache, ticketsValuesGet, hg, hf]
    · by_cases hu' : s.failTicketsUpdate = true
      · simp [Tickets.updateTicket, Tickets.invalidateCache, ticketsValuesGet,
          ticketsValuesUpdateCell, hg, hf, hu']
      · have hu : s.failTicketsUpdate = false := by simpa using hu'
        simp [Tickets.updateTicket, Tickets.invalidateCache, ticketsValuesGet,
          ticketsValuesUpdateCell, hg, hf, hu]

/-- Counterexample for C7: when the store append fails, `createTicket`
fails outright but the tickets cache is NOT left invalidated — it holds
the snapshot that the duplicate check freshly read just before the
failed append, so the claim that the cache is invalidated (snapshot
absent) on a failed append is false on this input. -/
theorem createTicket_failed_append_cache_cex :
    (Tickets.createTicket "T9" 0 0 failAppendState).1 =
      Except.error Err.storeUnavailable ∧
    (Tickets.createTicket "T9" 0 0 failAppendState).2.ticketsCache ≠ none := by
  constructor
  · rfl
  · decide

/-- Shared helper: when the orders append fails on the duplicate-OAB
path of `createOrder`, the call fails outright with the store failure
while the orders cache still holds the snapshot freshly read for the
duplicate check. -/
lemma createOrder_append_fail_dup (data : CreateOrderData)
    (uuid nowSol nowLib : String) (tNow tCap : Nat) (s : SysState) (eo : Order)
    (hog : s.failOrdersGet = false) (hoa : s.failOrdersAppend = true)
    (hne : data.numero_oab.trim ≠ "")
    (hfind : ((s.orderRows.drop 1).map Orders.rowToOrder).find?
      (fun o => o.numero_oab.trim == data.numero_oab.trim) = some eo) :
    (Orders.createOrder data uuid nowSol nowLib tNow tCap s).1 =
      Except.error Err.storeUnavailable ∧
    (Orders.createOrder data uuid nowSol nowLib tNow tCap s).2.ordersCache =
      some ((s.orderRows.drop 1).map Orders.rowToOrder) := by
  have hread := readAllOrders_after_invalidate tNow tCap s hog
  have htail : (List.map Orders.rowToOrder s.orderRows).tail
      = List.map Orders.rowToOrder (List.drop 1 s.orderRows) := by
    cases s.orderRows
    · rfl
    · rfl
  have hexs : (if data.numero_oab.trim = "" then (none : Option Order) else
      List.find? (fun o => o.numero_oab.trim == data.numero_oab.trim)
        ((List.map Orders.rowToOrder s.orderRows).tail)) = some eo := by
    rw [htail, if_neg hne]
    exact hfind
  simp [Orders.invalidateCache, hog, hoa] at hread
  constructor <;>
    simp [Orders.createOrder, Orders.invalidateCache, hog, hoa, hread, hexs,
      Orders.allocStep, ordersValuesAppend]

/-- Shared helper: when the orders append fails on the allocator path of
`createOrder` (no duplicate, an available ticket was assigned), the call
fails outright with the store failure while the orders cache still holds
the pre-append snapshot. -/
lemma createOrder_append_fail_alloc (data : CreateOrderData)
    (uuid nowSol nowLib : String) (tNow tCap : Nat) (s : SysState) (j : Nat)
    (hog : s.failOrdersGet = false) (hoa : s.failOrdersAppend = true)
    (hfg : s.failTicketsGet = false) (hfu : s.failTicketsUpdate = false)
    (hdup : data.numero_oab.trim = "" ∨
      ((s.orderRows.drop 1).map Orders.rowToOrder).find?
        (fun o => o.numero_oab.trim == data.numero_oab.trim) = none)
    (hj : findFirstIdx Tickets.isAvailRow (s.ticketRows.drop 1) = some j) :
    (Orders.createOrder data uuid nowSol nowLib tNow tCap s).1 =
      Except.error Err.storeUnavailable ∧
    (Orders.createOrder data uuid nowSol nowLib tNow tCap s).2.ordersCache =
      some ((s.orderRows.drop 1).map Orders.rowToOrder) := by
  have hread := readAllOrders_after_invalidate tNow tCap s hog
  have htail : (List.map Orders.rowToOrder s.orderRows).tail
      = List.map Orders.rowToOrder (List.drop 1 s.orderRows) := by
    cases s.orderRows
    · rfl
    · rfl
  have hexn : (if data.numero_oab.trim = "" then (none : Option Order) else
      List.find? (fun o => o.numero_oab.trim == data.numero_oab.trim)
        ((List.map Orders.rowToOrder s.orderRows).tail)) = none := by
    rcases hdup with h | h
    · simp [h]
    · rw [htail, h]
      split
      · rfl
      · rfl
  have hassign := assign_eq_of_found
    { s with ordersCache := some ((s.orderRows.drop 1).map Orders.rowToOrder),
             ordersCacheTime := tCap, ordersReads := s.ordersReads + 1 }
    j hfg hfu hj
  simp [Orders.invalidateCache, hog, hoa, hfg, hfu] at hread hassign
  constructor <;>
    simp [Orders.createOrder, Orders.invalidateCache, hog, hoa, hfg, hfu, hread,
      hexn, Orders.allocStep, hassign, ordersValuesAppend]

/-- C7 amended: for the row-update write paths (`updateOrder`,
`updateTicket`) any failure of the store call leaves the resource cache
invalidated; but when the store append fails in `createTicket` (and
likewise `createOrder`), the operation fails outright while the cache is
left holding the snapshot freshly read before the append — the final
invalidation is skipped — so a read within the TTL is served from that
pre-append snapshot. -/
theorem writeFailure_cache_state (data : CreateOrderData)
    (uuidC nowSol nowLib uuid : String) (dataU : UpdateOrderData)
    (oldT newT tk : String) (tNow tCap : Nat) (s : SysState)
    (hg : s.failTicketsGet = false) (ha : s.failTicketsAppend = true)
    (hnc : (Tickets.decodeTickets s.ticketRows).any (fun t => t.ticket == tk) = false) :
    (Orders.updateOrder uuid dataU s).2.ordersCache = none ∧
    (Tickets.updateTicket oldT newT s).2.ticketsCache = none ∧
    (Tickets.createTicket tk tNow tCap s).1 = Except.error Err.storeUnavailable ∧
    (Tickets.createTicket tk tNow tCap s).2.ticketsCache =
      some (Tickets.decodeTickets s.ticketRows) ∧
    (∀ eo, s.failOrdersGet = false → s.failOrdersAppend = true →
      data.numero_oab.trim ≠ "" →
      ((s.orderRows.drop 1).map Orders.rowToOrder).find?
        (fun o => o.numero_oab.trim == data.numero_oab.trim) = some eo →
      (Orders.createOrder data uuidC nowSol nowLib tNow tCap s).1 =
        Except.error Err.storeUnavailable ∧
      (Orders.createOrder data uuidC nowSol nowLib tNow tCap s).2.ordersCache =
        some ((s.orderRows.drop 1).map Orders.rowToOrder)) ∧
    (∀ j, s.failOrdersGet = false → s.failOrdersAppend = true →
      s.failTicketsUpdate = false →
      (data.numero_oab.trim = "" ∨
        ((s.orderRows.drop 1).map Orders.rowToOrder).find?
          (fun o => o.numero_oab.trim == data.numero_oab.trim) = none) →
      findFirstIdx Tickets.isAvailRow (s.ticketRows.drop 1) = some j →
      (Orders.createOrder data uuidC nowSol nowLib tNow tCap s).1 =
        Except.error Err.storeUnavailable ∧
      (Orders.createOrder data uuidC nowSol nowLib tNow tCap s).2.ordersCache =
        some ((s.orderRows.drop 1).map Orders.rowToOrder)) := by
  refine ⟨updateOrder_ordersCache_none uuid dataU s,
    updateTicket_ticketsCache_none oldT newT s, ?_, ?_, ?_, ?_⟩
  · simp [Tickets.createTicket, Tickets.readAllTickets, Tickets.readAllTicketsFresh,
      Tickets.invalidateCache, ticketsValuesGet, ticketsValuesAppend, hg, ha, hnc]
  · simp [Tickets.createTicket, Tickets.readAllTickets, Tickets.readAllTicketsFresh,
      Tickets.invalidateCache, ticketsValuesGet, ticketsValuesAppend, hg, ha, hnc]
  · intro eo hog hoa hne hfind
    exact createOrder_append_fail_dup data uuidC nowSol nowLib tNow tCap s eo
      hog hoa hne hfind
  · intro j hog hoa hfu hdup hj
    exact createOrder_append_fail_alloc data uuidC nowSol nowLib tNow tCap s j
      hog hoa hg hfu hdup hj

/-- Witness for the amended C7: at a state where both appends fail,
`createTicket` and a duplicate-OAB `createOrder` each fail with the
store failure while the respective cache holds the freshly read
pre-append snapshot. -/
theorem writeFailure_cache_state_witness :
    failAppendBothState.failTicketsAppend = true ∧
    (Tickets.createTicket "T9" 1 2 failAppendBothState).1 =
      Except.error Err.storeUnavailable ∧
    (Tickets.createTicket "T9" 1 2 failAppendBothState).2.ticketsCache =
      some (Tickets.decodeTickets failAppendBothState.ticketRows) ∧
    (Orders.createOrder dupData "w-7" "d1" "d2" 1 2 failAppendBothState).1 =
      Except.error Err.storeUnavailable ∧
    (Orders.createOrder dupData "w-7" "d1" "d2" 1 2 failAppendBothState).2.ordersCache =
      some ((failAppendBothState.orderRows.drop 1).map Orders.rowToOrder) := by
  have hne : dupData.numero_oab.trim ≠ "" := by
    show "123".trim ≠ ""
    rw [trim_123]
    decide
  have hfind : ((failAppendBothState.orderRows.drop 1).map Orders.rowToOrder).find?
      (fun o => o.numero_oab.trim == dupData.numero_oab.trim) = some anaOrder := by
    simp [failAppendBothState, baseState, Orders.rowToOrder, cell, List.find?,
      anaOrder, dupData]
  have h := writeFailure_cache_state dupData "w-7" "d1" "d2" "u-1" updStatusData
    "T1" "T9" "T9" 1 2 failAppendBothState rfl rfl (by decide)
  have hco := h.2.2.2.2.1 anaOrder rfl rfl hne hfind
  exact ⟨rfl, h.2.2.1, h.2.2.2.1, hco.1, hco.2⟩
